import Mathlib

/-!
Shallow embedding of the observability/audit subsystem of `backend/app.py`
(recent-activity cache, resilient cache connector, async audit publisher,
counter/span telemetry, and the business handlers that drive them).

Modelling conventions:
* The Redis list `api_logs` is a `List StoredItem`, head = newest
  (`LPUSH` pushes to the head).
* JSON (de)serialization is modelled abstractly: an item stored by
  `log_to_redis` is `StoredItem.wellFormed e` (serialized `LogEntry`,
  `json.loads` succeeds and yields `e`); any other blob is
  `StoredItem.malformed raw` (`json.loads` raises on it).
* A Python function that may raise is embedded with an `Except` codomain;
  a `try/except` that swallows the error is an explicit `match` producing
  `Except.ok` on every branch.
* Side effects (counter increments, log lines, span attributes, publishes)
  are recorded as an explicit trace (`List TEvent` / `List ConnEvent`).
* Wall-clock timestamps, connections and hashes enter as parameters.
-/

namespace AksDemo

/-! ### Data model: recent-activity cache (`api_logs` Redis list) -/

/-- A log entry as built by `log_to_redis`:
`{'timestamp': ..., 'action': action, 'details': details}`. -/
structure LogEntry where
  timestamp : String
  action : String
  details : String
  deriving DecidableEq, Repr

/-- An item stored in the `api_logs` list: either the serialization of a
`LogEntry` (on which `json.loads` succeeds) or an unparsable blob (on which
`json.loads` raises). -/
inductive StoredItem where
  | wellFormed (e : LogEntry)
  | malformed (raw : String)
  deriving DecidableEq, Repr

/-- An element of the list returned by `get_redis_logs`: the parsed entry,
or the raw-passthrough wrapper `{"raw": item}` built in the
`except` branch of the per-item loop. -/
inductive OutItem where
  | parsed (e : LogEntry)
  | rawWrapped (raw : String)
  deriving DecidableEq, Repr

/-- `redis_client.lpush('api_logs', x)`: insert at the head. -/
def lpush (x : StoredItem) (s : List StoredItem) : List StoredItem := x :: s

/-- `redis_client.ltrim('api_logs', 0, 99)`: keep indices 0..99. -/
def ltrim100 (s : List StoredItem) : List StoredItem := s.take 100

/-- `redis_client.lrange('api_logs', -100, -1)`: the last 100 elements in
list order (clamped to the whole list when it is shorter). -/
def lrangeLast100 (s : List StoredItem) : List StoredItem :=
  s.drop (s.length - 100)

/-- The per-item body of the loop in `get_redis_logs`:
`try: out.append(json.loads(item)) except: out.append({"raw": item})`. -/
def jsonLoadsItem : StoredItem → OutItem
  | StoredItem.wellFormed e => OutItem.parsed e
  | StoredItem.malformed raw => OutItem.rawWrapped raw

/-- Body of `get_redis_logs` after a successful connection:
fetch `lrange('api_logs', -100, -1)`, deserialize each item with the
raw-passthrough fallback, then `out.reverse()`. -/
def get_redis_logs_body (s : List StoredItem) : List OutItem :=
  ((lrangeLast100 s).map jsonLoadsItem).reverse

/-! ### ResilientConnector: `get_redis_connection` -/

/-- Outcome of one iteration of the retry loop: the client was constructed
and `ping()` succeeded (`ok`), constructing the client raised
(`createFail`), or `ping()` raised (`pingFail`). -/
inductive AttemptResult where
  | ok (conn : Nat)
  | createFail (e : String)
  | pingFail (e : String)
  deriving DecidableEq, Repr

/-- Whether the attempt raised (either stage). -/
def attFails : AttemptResult → Bool
  | AttemptResult.ok _ => false
  | AttemptResult.createFail _ => true
  | AttemptResult.pingFail _ => true

/-- The message of the exception raised by a failing attempt. -/
def attErrMsg : AttemptResult → String
  | AttemptResult.ok _ => ""
  | AttemptResult.createFail e => e
  | AttemptResult.pingFail e => e

/-- Observable events of the retry loop: an attempt with its index, and a
`time.sleep(d)` between consecutive attempts. -/
inductive ConnEvent where
  | tried (i : Nat)
  | slept (d : Nat)
  deriving DecidableEq, Repr

/-- The `for attempt in range(max_retries)` loop of `get_redis_connection`,
over the list of remaining attempt indices: on success return the client;
on failure sleep `retry_delay = 2` and retry, unless this was the last
attempt (`attempt == max_retries - 1`), in which case re-raise the
exception. -/
def connLoop (att : Nat → AttemptResult) : List Nat → Except String Nat × List ConnEvent
  | [] => (Except.error "", [])
  | [i] =>
    match att i with
    | AttemptResult.ok c => (Except.ok c, [ConnEvent.tried i])
    | AttemptResult.createFail e => (Except.error e, [ConnEvent.tried i])
    | AttemptResult.pingFail e => (Except.error e, [ConnEvent.tried i])
  | i :: j :: rest =>
    match att i with
    | AttemptResult.ok c => (Except.ok c, [ConnEvent.tried i])
    | AttemptResult.createFail _ =>
      let r := connLoop att (j :: rest)
      (r.1, ConnEvent.tried i :: ConnEvent.slept 2 :: r.2)
    | AttemptResult.pingFail _ =>
      let r := connLoop att (j :: rest)
      (r.1, ConnEvent.tried i :: ConnEvent.slept 2 :: r.2)

/-- `get_redis_connection`: `max_retries = 3` (attempt indices
`range(3) = [0, 1, 2]`), `retry_delay = 2`. `att i` is the outcome the
environment gives to the `i`-th attempt. -/
def get_redis_connection (att : Nat → AttemptResult) : Except String Nat × List ConnEvent :=
  connLoop att [0, 1, 2]

/-! ### RecentActivityLog: `log_to_redis` and `get_redis_logs` -/

/-- State change of one successful `log_to_redis` body:
`lpush` the serialized entry, then `ltrim('api_logs', 0, 99)`. -/
def logStep (e : LogEntry) (s : List StoredItem) : List StoredItem :=
  ltrim100 (lpush (StoredItem.wellFormed e) s)

/-- `log_to_redis(action, details)`: the whole body is wrapped in
`try/except` that prints `Redis logging error: ...` and returns normally.
The result is the new store plus the printed error lines; the `Except`
codomain records that the embedded Python function could in principle
raise — the catch makes every branch `Except.ok`. -/
def log_to_redis (att : Nat → AttemptResult) (now action details : String)
    (s : List StoredItem) : Except String (List StoredItem × List String) :=
  match (get_redis_connection att).1 with
  | Except.ok _ => Except.ok (logStep ⟨now, action, details⟩ s, [])
  | Except.error e => Except.ok (s, ["Redis logging error: " ++ e])

/-- A sequence of successful `record` calls (oldest call first), folded
over the store. -/
def recordAll (es : List LogEntry) (s : List StoredItem) : List StoredItem :=
  es.foldl (fun st e => logStep e st) s

/-- Responses of the `/logs/redis` handler. -/
inductive LogsResp where
  | logs (items : List OutItem)
  | errResp (code : Nat) (msg : String)
  deriving DecidableEq, Repr

/-- `get_redis_logs`: acquire a connection (the surrounding `try/except`
turns a `ConnectionError` into a 500 response), then run the body. -/
def get_redis_logs (att : Nat → AttemptResult) (s : List StoredItem) : LogsResp :=
  match (get_redis_connection att).1 with
  | Except.ok _ => LogsResp.logs (get_redis_logs_body s)
  | Except.error e => LogsResp.errResp 500 e

/-! ### AuditPublisher: `async_log_api_stats` and its detached unit -/

/-- The dict built inside `_log` and sent to the `api-logs` topic. -/
structure AuditMsg where
  timestamp : String
  endpoint : String
  method : String
  status : String
  user_id : Option String
  message : String
  deriving DecidableEq, Repr

/-- Python string interpolation of a possibly-`None` user id. -/
def optStr : Option String → String
  | some s => s
  | none => "None"

/-- The `log_data` dict: `message` is
`f"{user_id}가 {method} {endpoint} 호출 ({status})"`. -/
def mkLogData (now endpoint method status : String) (uid : Option String) : AuditMsg :=
  { timestamp := now, endpoint := endpoint, method := method, status := status,
    user_id := uid,
    message := optStr uid ++ "가 " ++ method ++ " " ++ endpoint ++ " 호출 (" ++ status ++ ")" }

/-- The broker as seen by one producer: reachability plus the retained
contents of the `api-logs` topic. -/
structure BrokerState where
  reachable : Bool
  topic : List AuditMsg
  deriving DecidableEq, Repr

/-- `producer.send('api-logs', log_data)` followed by `producer.flush()`:
appends to the topic, or raises when the broker is unreachable. -/
def sendAndFlush (m : AuditMsg) (b : BrokerState) : Except String BrokerState :=
  if b.reachable then Except.ok { b with topic := b.topic ++ [m] }
  else Except.error "broker unreachable"

/-- The unit of work handed to `Thread(target=_log).start()`. -/
structure DetachedTask where
  payload : AuditMsg
  deriving DecidableEq, Repr

/-- `async_log_api_stats`: the caller builds the closure and starts the
thread — it performs no broker operation itself, so its result does not
depend on the broker and is `ok` for every input. -/
def async_log_api_stats (endpoint method status : String) (uid : Option String)
    (now : String) : Except String DetachedTask :=
  Except.ok ⟨mkLogData now endpoint method status uid⟩

/-- The detached `_log` body: `try: ... send ... flush ... except: print`.
Returns the broker state it produced and the error lines it printed. -/
def runDetached (t : DetachedTask) (b : BrokerState) : BrokerState × List String :=
  match sendAndFlush t.payload b with
  | Except.ok b' => (b', [])
  | Except.error e => (b, ["Kafka logging error: " ++ e])

/-! ### Handler traces (telemetry, record, publish side effects) -/

/-- One observable side effect of a handler, in program order:
counter increments, span attributes / error tagging, stdlib log lines,
the `log_to_redis` call, the `async_log_api_stats` call, Flask-session and
Redis-session writes, and relational-DB statements. -/
inductive TEvent where
  | apiCount (endpoint method status : String)
  | dbCount (op table : String)
  | spanSet (key value : String)
  | spanErr (msg : String)
  | logLine (level msg : String)
  | redisRecord (action details : String)
  | kafkaPublish (endpoint method status : String) (uid : Option String)
  | sessionStore (user : String)
  | redisSet (key : String)
  | dbSelect (table : String)
  | dbInsert (table : String)
  | dbCommit
  deriving DecidableEq, Repr

/-- HTTP-level responses of the handlers. -/
inductive HResp where
  | ok (msg : String)
  | okList (rows : List String)
  | errResp (code : Nat) (msg : String)
  deriving DecidableEq, Repr

/-- Outcome of the fallible DB block of `save_to_db` (connection, JSON
parse, insert, commit), modelled at its first fallible operation. -/
inductive DbOutcome where
  | ok
  | fail (e : String)
  deriving DecidableEq, Repr

/-- The `/db/message` POST handler `save_to_db`, as the trace of its
observability side effects in program order. The success branch runs
counter increments, then `log_to_redis`, then `logger.info`, then
`async_log_api_stats`; the `except` branch tags the span, increments the
error counter, logs, publishes, then records. -/
def save_to_db (user message : String) (db : DbOutcome) : HResp × List TEvent :=
  match db with
  | DbOutcome.ok =>
    (HResp.ok "success",
     [TEvent.spanSet "user.id" user,
      TEvent.spanSet "message.length" (toString message.length),
      TEvent.apiCount "/db/message" "POST" "success",
      TEvent.dbCount "insert" "messages",
      TEvent.redisRecord "db_insert" ("Message saved: " ++ message.take 30 ++ "..."),
      TEvent.logLine "info" ("User " ++ user ++ " saved message: " ++ message.take 30 ++ "..."),
      TEvent.kafkaPublish "/db/message" "POST" "success" (some user)])
  | DbOutcome.fail e =>
    (HResp.errResp 500 e,
     [TEvent.spanSet "user.id" user,
      TEvent.spanErr e,
      TEvent.apiCount "/db/message" "POST" "error",
      TEvent.logLine "error" ("Error saving message: " ++ e),
      TEvent.kafkaPublish "/db/message" "POST" "error" (some user),
      TEvent.redisRecord "db_insert_error" e])

/-- The `/db/messages` GET handler `get_from_db`: fetches rows, publishes
one audit event — it increments no counter on any path. -/
def get_from_db (user : String) (db : Except String (List String)) : HResp × List TEvent :=
  match db with
  | Except.ok rows =>
    (HResp.okList rows,
     [TEvent.kafkaPublish "/db/messages" "GET" "success" (some user)])
  | Except.error e =>
    (HResp.errResp 500 e,
     [TEvent.kafkaPublish "/db/messages" "GET" "error" (some user)])

/-- A row of the `users` table. -/
structure UserRow where
  username : String
  password : String
  deriving DecidableEq, Repr

/-- The `/login` POST handler. `dbResult` is the outcome of the user
lookup (`Except.error` = the block raised, caught by the outer
`except`); `check` embeds `check_password_hash`; `redisOk` tells whether
the best-effort Redis session write succeeds. -/
def login (username password : Option String)
    (dbResult : Except String (Option UserRow))
    (check : String → String → Bool) (redisOk : Bool) : HResp × List TEvent :=
  let e0 := TEvent.spanSet "user.username" (optStr username)
  match username, password with
  | some u, some p =>
    (match dbResult with
     | Except.error err =>
       (HResp.errResp 500 "로그인 처리 중 오류가 발생했습니다",
        [e0, TEvent.spanErr err,
         TEvent.apiCount "/login" "POST" "error",
         TEvent.logLine "error" ("Login error: " ++ err)])
     | Except.ok userRow =>
       match userRow with
       | some row =>
         if check row.password p then
           (HResp.ok "로그인 성공",
            [e0, TEvent.dbCount "select" "users", TEvent.sessionStore u] ++
            (if redisOk then [TEvent.redisSet ("session:" ++ u)]
             else [TEvent.logLine "warning" "Redis session error"]) ++
            [TEvent.apiCount "/login" "POST" "success",
             TEvent.logLine "info" ("User " ++ u ++ " logged in successfully")])
         else
           (HResp.errResp 401 "잘못된 인증 정보",
            [e0, TEvent.dbCount "select" "users",
             TEvent.apiCount "/login" "POST" "error",
             TEvent.logLine "warning" ("Failed login attempt for user: " ++ u)])
       | none =>
         (HResp.errResp 401 "잘못된 인증 정보",
          [e0, TEvent.dbCount "select" "users",
           TEvent.apiCount "/login" "POST" "error",
           TEvent.logLine "warning" ("Failed login attempt for user: " ++ u)]))
  | _, _ =>
    (HResp.errResp 400 "사용자명과 비밀번호는 필수입니다",
     [e0, TEvent.apiCount "/login" "POST" "error"])

/-- The `/register` POST handler: missing fields → 400 with no DB access;
duplicate username → 400 after the SELECT only; otherwise INSERT + COMMIT
appending the new row. `hash` embeds `generate_password_hash`. -/
def register (username password : Option String) (hash : String → String)
    (users : List UserRow) : HResp × List UserRow × List TEvent :=
  match username, password with
  | some u, some p =>
    if users.any (fun r => r.username == u) then
      (HResp.errResp 400 "이미 존재하는 사용자명입니다", users, [TEvent.dbSelect "users"])
    else
      (HResp.ok "회원가입이 완료되었습니다", users ++ [⟨u, hash p⟩],
       [TEvent.dbSelect "users", TEvent.dbInsert "users", TEvent.dbCommit])
  | _, _ => (HResp.errResp 400 "사용자명과 비밀번호는 필수입니다", users, [])

/-! ### Trace predicates -/

/-- An `api.calls` counter increment carrying the given status label. -/
def isApiCountWith (status : String) : TEvent → Bool
  | TEvent.apiCount _ _ s => s == status
  | _ => false

/-- A `log_to_redis` (RecentActivityLog.record) call. -/
def isRedisRecordEv : TEvent → Bool
  | TEvent.redisRecord _ _ => true
  | _ => false

/-- An `async_log_api_stats` (AuditPublisher.publishAsync) call. -/
def isKafkaPublishEv : TEvent → Bool
  | TEvent.kafkaPublish _ _ _ _ => true
  | _ => false

/-- A stdlib log line. -/
def isLogLineEv : TEvent → Bool
  | TEvent.logLine _ _ => true
  | _ => false

/-- A span error tagging. -/
def isSpanErrEv : TEvent → Bool
  | TEvent.spanErr _ => true
  | _ => false

/-- A relational INSERT. -/
def isDbInsertEv : TEvent → Bool
  | TEvent.dbInsert _ => true
  | _ => false

/-- A relational COMMIT. -/
def isDbCommitEv : TEvent → Bool
  | TEvent.dbCommit => true
  | _ => false

/-! ### `get_kafka_logs` (AuditPublisher.drain) -/

/-- The fields extracted from `message.value` by `get_kafka_logs`.
Timestamps are modelled as naturals, ordered as the ISO-8601 strings
compare lexicographically. -/
structure KafkaMsg where
  timestamp : Nat
  endpoint : String
  method : String
  status : String
  user_id : Option String
  message : String
  deriving DecidableEq, Repr

/-- A message yielded by the consumer iterator before the
`consumer_timeout_ms` idle timeout fires. -/
structure ConsumerMsg where
  value : KafkaMsg
  deriving DecidableEq, Repr

/-- The dict appended to `logs` for one consumer message. -/
def extractLog (m : ConsumerMsg) : KafkaMsg := m.value

/-- The `for message in consumer` loop: append, then
`if len(logs) >= 100: break`; the iterator itself stops at the idle
timeout, i.e. when `msgs` is exhausted. -/
def readLoop : List ConsumerMsg → List KafkaMsg → List KafkaMsg
  | [], logs => logs
  | m :: rest, logs =>
    let logs' := logs ++ [extractLog m]
    if 100 ≤ logs'.length then logs' else readLoop rest logs'

/-- Insertion step of the descending-by-timestamp sort
(`logs.sort(key=lambda x: x['timestamp'], reverse=True)`; the claim
concerns sortedness, not stability). -/
def insertDesc (x : KafkaMsg) : List KafkaMsg → List KafkaMsg
  | [] => [x]
  | y :: ys =>
    if y.timestamp ≤ x.timestamp then x :: y :: ys else y :: insertDesc x ys

/-- Sort descending by timestamp. -/
def sortDesc (l : List KafkaMsg) : List KafkaMsg := l.foldr insertDesc []

/-- Sorted descending by timestamp. -/
def SortedDesc (l : List KafkaMsg) : Prop :=
  l.Pairwise (fun a b => b.timestamp ≤ a.timestamp)

/-- `get_kafka_logs` as a function of the messages the consumer yields
before its idle timeout: read up to 100, then sort descending. -/
def get_kafka_logs (msgs : List ConsumerMsg) : List KafkaMsg :=
  sortDesc (readLoop msgs [])

/-! ### Concrete entries used by evaluation theorems -/

/-- Concrete log entry (oldest in the examples). -/
def eA : LogEntry := ⟨"2026-01-01T00:00:01", "a1", "d1"⟩

/-- Concrete log entry. -/
def eB : LogEntry := ⟨"2026-01-01T00:00:02", "a2", "d2"⟩

/-- Concrete log entry (newest in the examples). -/
def eC : LogEntry := ⟨"2026-01-01T00:00:03", "a3", "d3"⟩

/-- An environment in which every connection attempt fails at client
construction (cache store down). -/
def failAtt : Nat → AttemptResult := fun _ => AttemptResult.createFail "conn refused"

/-- An environment in which every connection attempt succeeds. -/
def okAtt : Nat → AttemptResult := fun _ => AttemptResult.ok 0

/-- A password check that accepts (concrete instance for evaluation). -/
def chkTrue : String → String → Bool := fun _ _ => true

/-- A password check that rejects (concrete instance for evaluation). -/
def chkFalse : String → String → Bool := fun _ _ => false

/-! ## Helper lemmas -/

/-- Trimming inside an append is absorbed by the outer trim. -/
theorem take_append_take {α : Type} (n : Nat) (L x : List α) :
    (L ++ x.take n).take n = (L ++ x).take n := by
  rw [List.take_append_eq_append_take, List.take_append_eq_append_take, List.take_take,
    Nat.min_eq_left (Nat.sub_le n L.length)]

/-- One `record` step leaves at most 100 entries in the store. -/
theorem logStep_length_le (e : LogEntry) (s : List StoredItem) :
    (logStep e s).length ≤ 100 := by
  simp only [logStep, ltrim100, lpush, List.length_take]
  omega

/-- A fold of `record` steps over a store within the cap equals pushing
all serialized entries and trimming once. -/
theorem recordAll_eq (es : List LogEntry) (s : List StoredItem) (h : s.length ≤ 100) :
    recordAll es s = ((es.reverse.map StoredItem.wellFormed) ++ s).take 100 := by
  induction es generalizing s with
  | nil => simp [recordAll, List.take_of_length_le h]
  | cons e es ih =>
    have h1 : (logStep e s).length ≤ 100 := logStep_length_le e s
    have step : recordAll (e :: es) s = recordAll es (logStep e s) := rfl
    rw [step, ih (logStep e s) h1]
    show ((es.reverse.map StoredItem.wellFormed) ++ (StoredItem.wellFormed e :: s).take 100).take 100 = _
    rw [take_append_take]
    simp [List.reverse_cons, List.map_append, List.append_assoc]

/-- After at least 101 `record` calls, the store is exactly the 100 most
recent entries, serialized, newest at the head. -/
theorem recordAll_drop (es : List LogEntry) (s0 : List StoredItem) (h : 101 ≤ es.length) :
    recordAll es s0 =
      ((es.drop (es.length - 100)).map StoredItem.wellFormed).reverse := by
  have main : recordAll es s0 = (es.reverse.map StoredItem.wellFormed).take 100 := by
    cases es with
    | nil => simp at h
    | cons e es =>
      have hlen : 100 ≤ es.length := by
        simp only [List.length_cons] at h; omega
      have h1 : (logStep e s0).length ≤ 100 := logStep_length_le e s0
      have step : recordAll (e :: es) s0 = recordAll es (logStep e s0) := rfl
      rw [step, recordAll_eq es (logStep e s0) h1,
        List.take_append_of_le_length (by simpa using hlen),
        List.reverse_cons, List.map_append,
        List.take_append_of_le_length (by simpa using hlen)]
  rw [main, ← List.map_take, ← List.map_reverse]
  have key : es.reverse.take 100 = (es.drop (es.length - 100)).reverse := by
    have h2 : (es.reverse.take 100).reverse = es.drop (es.length - 100) := by
      rw [List.reverse_take]
      simp
    rw [← h2, List.reverse_reverse]
  rw [key]

/-! ## Claims -/

/-- Claim C1 (code bug): `log_to_redis` pushes new entries to the head of
`api_logs`, so the store's native order is newest-first; `get_redis_logs`
fetches the (at most 100) items head-first and then reverses them, so the
caller sees the entries oldest-first — contrary to the newest-first order
the claim (and the code's own `newest first` comment) states. Malformed
entries are indeed preserved in place as raw-passthrough wrappers and
nothing is raised. Evaluation at the failing input: after recording
`eA, eB, eC` in that order, the handler returns `[eA, eB, eC]`
(oldest first), not `[eC, eB, eA]`. -/
theorem c1_eval :
    get_redis_logs okAtt (recordAll [eA, eB, eC] []) =
      LogsResp.logs [OutItem.parsed eA, OutItem.parsed eB, OutItem.parsed eC] ∧
    get_redis_logs okAtt (recordAll [eA, eB, eC] []) ≠
      LogsResp.logs [OutItem.parsed eC, OutItem.parsed eB, OutItem.parsed eA] ∧
    get_redis_logs_body
        [StoredItem.wellFormed eC, StoredItem.malformed "junk", StoredItem.wellFormed eA] =
      [OutItem.parsed eA, OutItem.rawWrapped "junk", OutItem.parsed eC] := by
  decide

/-- Claim C2: after every `record` call the backing store holds at most
100 entries (the oldest beyond the cap are evicted at write time by the
`ltrim`); for every sequence of at least 101 `record` calls, reading the
recent log returns exactly the 100 most recent entries and no entry older
than the 101st-from-last survives in the store. -/
theorem c2_store_cap (es : List LogEntry) (s0 : List StoredItem) (h : 101 ≤ es.length) :
    (∀ e s, (logStep e s).length ≤ 100) ∧
    (recordAll es s0).length = 100 ∧
    get_redis_logs_body (recordAll es s0) =
      (es.drop (es.length - 100)).map OutItem.parsed ∧
    (∀ x ∈ recordAll es s0, ∃ e ∈ es.drop (es.length - 100),
      x = StoredItem.wellFormed e) := by
  have hd := recordAll_drop es s0 h
  have hlen : (recordAll es s0).length = 100 := by
    rw [hd]
    simp only [List.length_reverse, List.length_map, List.length_drop]
    omega
  refine ⟨logStep_length_le, hlen, ?_, ?_⟩
  · show (((recordAll es s0).drop ((recordAll es s0).length - 100)).map jsonLoadsItem).reverse = _
    rw [hlen, Nat.sub_self, List.drop_zero, hd, List.map_reverse, List.reverse_reverse,
      List.map_map]
    rfl
  · intro x hx
    rw [hd, List.mem_reverse, List.mem_map] at hx
    rcases hx with ⟨e, he, rfl⟩
    exact ⟨e, he, rfl⟩

/-- Witness for C2 at a concrete sequence of 101 record calls. -/
theorem c2_store_cap_witness :
    101 ≤ (List.replicate 101 eA).length ∧
    ((∀ e s, (logStep e s).length ≤ 100) ∧
     (recordAll (List.replicate 101 eA) []).length = 100 ∧
     get_redis_logs_body (recordAll (List.replicate 101 eA) []) =
       ((List.replicate 101 eA).drop ((List.replicate 101 eA).length - 100)).map OutItem.parsed ∧
     (∀ x ∈ recordAll (List.replicate 101 eA) ([] : List StoredItem),
       ∃ e ∈ (List.replicate 101 eA).drop ((List.replicate 101 eA).length - 100),
         x = StoredItem.wellFormed e)) :=
  ⟨by simp, c2_store_cap (List.replicate 101 eA) [] (by simp)⟩

/-- Claim C3: `log_to_redis` never raises: for every environment —
including one in which the connector exhausts its retries and raises
`ConnectionError` — it returns normally, and in the connection-failure
case it leaves the store unchanged and only prints the error. -/
theorem c3_record_never_raises (att : Nat → AttemptResult) (now action details : String)
    (s : List StoredItem) :
    (∃ v, log_to_redis att now action details s = Except.ok v) ∧
    (∀ e, (get_redis_connection att).1 = Except.error e →
      log_to_redis att now action details s =
        Except.ok (s, ["Redis logging error: " ++ e])) := by
  constructor
  · rcases h : (get_redis_connection att).1 with e | c
    · exact ⟨(s, ["Redis logging error: " ++ e]), by simp [log_to_redis, h]⟩
    · exact ⟨(logStep ⟨now, action, details⟩ s, []), by simp [log_to_redis, h]⟩
  · intro e he
    simp [log_to_redis, he]

/-- Witness for C3: the store is down on all three attempts, the
connector raises, and `log_to_redis` still returns normally. -/
theorem c3_record_never_raises_witness :
    (∃ v, log_to_redis failAtt "t" "a" "d" [] = Except.ok v) ∧
    log_to_redis failAtt "t" "a" "d" [] =
      Except.ok ([], ["Redis logging error: " ++ "conn refused"]) :=
  ⟨(c3_record_never_raises failAtt "t" "a" "d" []).1,
   (c3_record_never_raises failAtt "t" "a" "d" []).2 "conn refused" rfl⟩

/-- Claim C7: `get_redis_connection` makes up to exactly 3 attempts with a
fixed `time.sleep(2)` between consecutive attempts, succeeds only on an
attempt whose liveness ping succeeded, and raises to its caller exactly
when all 3 attempts fail (re-raising the last exception). -/
theorem c7_retry (att : Nat → AttemptResult) :
    (attFails (att 0) = true → attFails (att 1) = true → attFails (att 2) = true →
      get_redis_connection att =
        (Except.error (attErrMsg (att 2)),
         [ConnEvent.tried 0, ConnEvent.slept 2, ConnEvent.tried 1,
          ConnEvent.slept 2, ConnEvent.tried 2])) ∧
    (∀ c, att 0 = AttemptResult.ok c →
      get_redis_connection att = (Except.ok c, [ConnEvent.tried 0])) ∧
    (∀ c, attFails (att 0) = true → att 1 = AttemptResult.ok c →
      get_redis_connection att =
        (Except.ok c, [ConnEvent.tried 0, ConnEvent.slept 2, ConnEvent.tried 1])) ∧
    (∀ c, attFails (att 0) = true → attFails (att 1) = true → att 2 = AttemptResult.ok c →
      get_redis_connection att =
        (Except.ok c, [ConnEvent.tried 0, ConnEvent.slept 2, ConnEvent.tried 1,
         ConnEvent.slept 2, ConnEvent.tried 2])) ∧
    (∀ e, (get_redis_connection att).1 = Except.error e →
      attFails (att 0) = true ∧ attFails (att 1) = true ∧ attFails (att 2) = true) ∧
    (∀ c, (get_redis_connection att).1 = Except.ok c →
      att 0 = AttemptResult.ok c ∨ att 1 = AttemptResult.ok c ∨ att 2 = AttemptResult.ok c) := by
  rcases h0 : att 0 with c0 | e0 | e0 <;> rcases h1 : att 1 with c1 | e1 | e1 <;>
    rcases h2 : att 2 with c2 | e2 | e2 <;>
    simp [get_redis_connection, connLoop, h0, h1, h2, attFails, attErrMsg]

/-- Witness for C7: with all attempts failing, the connector raises the
last exception after the trace try, sleep 2, try, sleep 2, try. -/
theorem c7_retry_witness :
    get_redis_connection failAtt =
      (Except.error (attErrMsg (failAtt 2)),
       [ConnEvent.tried 0, ConnEvent.slept 2, ConnEvent.tried 1,
        ConnEvent.slept 2, ConnEvent.tried 2]) :=
  (c7_retry failAtt).1 rfl rfl rfl

/-- Claim C4: `async_log_api_stats` returns normally for every input and
its caller-visible result does not depend on the broker at all (the
caller only spawns the detached unit); every failure of the detached
send-and-flush body is caught there, reported by a local print, and
changes nothing else. -/
theorem c4_publish (endpoint method status : String) (uid : Option String) (now : String)
    (b : BrokerState) (t : DetachedTask) :
    async_log_api_stats endpoint method status uid now =
      Except.ok ⟨mkLogData now endpoint method status uid⟩ ∧
    runDetached t b =
      (if b.reachable then ({ b with topic := b.topic ++ [t.payload] }, ([] : List String))
       else (b, ["Kafka logging error: " ++ "broker unreachable"])) := by
  refine ⟨rfl, ?_⟩
  cases hb : b.reachable <;> simp [runDetached, sendAndFlush, hb]

/-- Claim C5 counterexample: in the error path of `save_to_db` the
publish call (`async_log_api_stats`) precedes the `log_to_redis` record
call, contradicting the claimed fixed order counter → log line →
record → publish. -/
theorem c5_counterexample :
    (save_to_db "alice" "hello" (DbOutcome.fail "boom")).2 =
      [TEvent.spanSet "user.id" "alice", TEvent.spanErr "boom",
       TEvent.apiCount "/db/message" "POST" "error",
       TEvent.logLine "error" ("Error saving message: " ++ "boom"),
       TEvent.kafkaPublish "/db/message" "POST" "error" (some "alice"),
       TEvent.redisRecord "db_insert_error" "boom"] ∧
    (save_to_db "alice" "hello" (DbOutcome.fail "boom")).2.findIdx isKafkaPublishEv <
      (save_to_db "alice" "hello" (DbOutcome.fail "boom")).2.findIdx isRedisRecordEv := by
  exact ⟨rfl, by decide⟩

/-- Claim C5 amended: on every call `save_to_db` performs the counter
increment, the log line, the record call and the publish call each exactly
once and returns a response (no error escapes the handler), but in the
code's fixed order: on success counter → record → log line → publish; on
error span-tagging → counter → log line → publish → record. -/
theorem c5_facade (user message err : String) :
    ((save_to_db user message DbOutcome.ok).1 = HResp.ok "success" ∧
     (save_to_db user message DbOutcome.ok).2.countP (isApiCountWith "success") = 1 ∧
     (save_to_db user message DbOutcome.ok).2.countP isRedisRecordEv = 1 ∧
     (save_to_db user message DbOutcome.ok).2.countP isLogLineEv = 1 ∧
     (save_to_db user message DbOutcome.ok).2.countP isKafkaPublishEv = 1 ∧
     (save_to_db user message DbOutcome.ok).2.findIdx (isApiCountWith "success") <
       (save_to_db user message DbOutcome.ok).2.findIdx isRedisRecordEv ∧
     (save_to_db user message DbOutcome.ok).2.findIdx isRedisRecordEv <
       (save_to_db user message DbOutcome.ok).2.findIdx isLogLineEv ∧
     (save_to_db user message DbOutcome.ok).2.findIdx isLogLineEv <
       (save_to_db user message DbOutcome.ok).2.findIdx isKafkaPublishEv) ∧
    ((save_to_db user message (DbOutcome.fail err)).1 = HResp.errResp 500 err ∧
     (save_to_db user message (DbOutcome.fail err)).2.countP (isApiCountWith "error") = 1 ∧
     (save_to_db user message (DbOutcome.fail err)).2.countP isRedisRecordEv = 1 ∧
     (save_to_db user message (DbOutcome.fail err)).2.countP isLogLineEv = 1 ∧
     (save_to_db user message (DbOutcome.fail err)).2.countP isKafkaPublishEv = 1 ∧
     (save_to_db user message (DbOutcome.fail err)).2.findIdx isSpanErrEv <
       (save_to_db user message (DbOutcome.fail err)).2.findIdx (isApiCountWith "error") ∧
     (save_to_db user message (DbOutcome.fail err)).2.findIdx (isApiCountWith "error") <
       (save_to_db user message (DbOutcome.fail err)).2.findIdx isLogLineEv ∧
     (save_to_db user message (DbOutcome.fail err)).2.findIdx isLogLineEv <
       (save_to_db user message (DbOutcome.fail err)).2.findIdx isKafkaPublishEv ∧
     (save_to_db user message (DbOutcome.fail err)).2.findIdx isKafkaPublishEv <
       (save_to_db user message (DbOutcome.fail err)).2.findIdx isRedisRecordEv) := by
  exact ⟨⟨rfl, rfl, rfl, rfl, rfl, Nat.lt_of_sub_eq_succ rfl, Nat.lt_of_sub_eq_succ rfl,
          Nat.lt_of_sub_eq_succ rfl⟩,
         ⟨rfl, rfl, rfl, rfl, rfl, Nat.lt_of_sub_eq_succ rfl, Nat.lt_of_sub_eq_succ rfl,
          Nat.lt_of_sub_eq_succ rfl, Nat.lt_of_sub_eq_succ rfl⟩⟩

/-- Claim C6 counterexample: a successful `get_from_db` call increments
the success-labeled counter zero times, not once. -/
theorem c6_counterexample :
    (get_from_db "alice" (Except.ok [])).2.countP (isApiCountWith "success") = 0 ∧
    ¬ ((get_from_db "alice" (Except.ok [])).2.countP (isApiCountWith "success") = 1) := by
  exact ⟨rfl, by decide⟩

/-- Claim C6 amended: `save_to_db` and `login` increment exactly the
counter labeled with the call's outcome once and the opposite-status
counter zero times; `get_from_db` however increments neither counter on
any path. -/
theorem c6_counts (user message err u p : String) (rows : List String) (row : UserRow)
    (chT chF : String → String → Bool) (redisOk : Bool)
    (hT : chT row.password p = true) (hF : chF row.password p = false) :
    ((save_to_db user message DbOutcome.ok).2.countP (isApiCountWith "success") = 1 ∧
     (save_to_db user message DbOutcome.ok).2.countP (isApiCountWith "error") = 0) ∧
    ((save_to_db user message (DbOutcome.fail err)).2.countP (isApiCountWith "error") = 1 ∧
     (save_to_db user message (DbOutcome.fail err)).2.countP (isApiCountWith "success") = 0) ∧
    ((get_from_db user (Except.ok rows)).2.countP (isApiCountWith "success") = 0 ∧
     (get_from_db user (Except.ok rows)).2.countP (isApiCountWith "error") = 0 ∧
     (get_from_db user (Except.error err)).2.countP (isApiCountWith "error") = 0 ∧
     (get_from_db user (Except.error err)).2.countP (isApiCountWith "success") = 0) ∧
    ((login (some u) (some p) (Except.ok (some row)) chT redisOk).2.countP
        (isApiCountWith "success") = 1 ∧
     (login (some u) (some p) (Except.ok (some row)) chT redisOk).2.countP
        (isApiCountWith "error") = 0) ∧
    ((login (some u) (some p) (Except.ok (some row)) chF redisOk).2.countP
        (isApiCountWith "error") = 1 ∧
     (login (some u) (some p) (Except.ok (some row)) chF redisOk).2.countP
        (isApiCountWith "success") = 0) ∧
    ((login (some u) (some p) (Except.ok none) chF redisOk).2.countP
        (isApiCountWith "error") = 1 ∧
     (login (some u) (some p) (Except.ok none) chF redisOk).2.countP
        (isApiCountWith "success") = 0) ∧
    ((login none (some p) (Except.ok none) chF redisOk).2.countP
        (isApiCountWith "error") = 1 ∧
     (login none (some p) (Except.ok none) chF redisOk).2.countP
        (isApiCountWith "success") = 0) := by
  cases redisOk <;>
    simp [login, save_to_db, get_from_db, hT, hF, isApiCountWith,
      List.countP_cons, List.countP_append, List.countP_nil]

/-- Witness for C6 at concrete inputs (accepting and rejecting password
checks supplied explicitly). -/
theorem c6_counts_witness :
    chkTrue (UserRow.mk "alice" "h").password "pw" = true ∧
    chkFalse (UserRow.mk "alice" "h").password "pw" = false ∧
    ((login (some "alice") (some "pw") (Except.ok (some (UserRow.mk "alice" "h"))) chkTrue
        true).2.countP (isApiCountWith "success") = 1 ∧
     (login (some "alice") (some "pw") (Except.ok (some (UserRow.mk "alice" "h"))) chkTrue
        true).2.countP (isApiCountWith "error") = 0) :=
  ⟨rfl, rfl,
   (c6_counts "u" "m" "e" "alice" "pw" [] (UserRow.mk "alice" "h") chkTrue chkFalse true
     rfl rfl).2.2.2.1⟩

/-- Claim C9 counterexample: a failed `/login` (unknown user) returns the
401 response and increments the error counter, but its trace contains no
audit-publish event at all — `login` never calls `async_log_api_stats` —
so no audit event with a null actor is produced. -/
theorem c9_counterexample :
    login (some "alice") (some "pw") (Except.ok none) chkFalse true =
      (HResp.errResp 401 "잘못된 인증 정보",
       [TEvent.spanSet "user.username" "alice",
        TEvent.dbCount "select" "users",
        TEvent.apiCount "/login" "POST" "error",
        TEvent.logLine "warning" ("Failed login attempt for user: " ++ "alice")]) ∧
    (login (some "alice") (some "pw") (Except.ok none) chkFalse true).2.countP
      isKafkaPublishEv = 0 := by
  exact ⟨rfl, rfl⟩

/-- Claim C9 amended: a failed `/login` call (missing credentials,
unknown user, wrong password, or a raised lookup error) does not raise:
it returns an error response and increments the error-labeled counter
exactly once; but it publishes no audit event — `login` never invokes the
audit publisher on any path, successful logins included. -/
theorem c9_login (u p err : String) (row : UserRow)
    (db : Except String (Option UserRow))
    (chT chF : String → String → Bool) (redisOk : Bool)
    (hT : chT row.password p = true) (hF : chF row.password p = false) :
    ((login none (some p) db chF redisOk).1 =
       HResp.errResp 400 "사용자명과 비밀번호는 필수입니다" ∧
     (login none (some p) db chF redisOk).2.countP (isApiCountWith "error") = 1 ∧
     (login none (some p) db chF redisOk).2.countP isKafkaPublishEv = 0) ∧
    ((login (some u) (some p) (Except.ok none) chF redisOk).1 =
       HResp.errResp 401 "잘못된 인증 정보" ∧
     (login (some u) (some p) (Except.ok none) chF redisOk).2.countP
       (isApiCountWith "error") = 1 ∧
     (login (some u) (some p) (Except.ok none) chF redisOk).2.countP isKafkaPublishEv = 0) ∧
    ((login (some u) (some p) (Except.ok (some row)) chF redisOk).1 =
       HResp.errResp 401 "잘못된 인증 정보" ∧
     (login (some u) (some p) (Except.ok (some row)) chF redisOk).2.countP
       (isApiCountWith "error") = 1 ∧
     (login (some u) (some p) (Except.ok (some row)) chF redisOk).2.countP
       isKafkaPublishEv = 0) ∧
    ((login (some u) (some p) (Except.error err) chF redisOk).1 =
       HResp.errResp 500 "로그인 처리 중 오류가 발생했습니다" ∧
     (login (some u) (some p) (Except.error err) chF redisOk).2.countP
       (isApiCountWith "error") = 1 ∧
     (login (some u) (some p) (Except.error err) chF redisOk).2.countP
       isKafkaPublishEv = 0) ∧
    (login (some u) (some p) (Except.ok (some row)) chT redisOk).2.countP
      isKafkaPublishEv = 0 := by
  cases redisOk <;>
    simp [login, hT, hF, isApiCountWith, isKafkaPublishEv,
      List.countP_cons, List.countP_append, List.countP_nil]

/-- Witness for C9 at concrete inputs. -/
theorem c9_login_witness :
    chkTrue (UserRow.mk "alice" "h").password "pw" = true ∧
    chkFalse (UserRow.mk "alice" "h").password "pw" = false ∧
    ((login (some "alice") (some "pw") (Except.ok none) chkFalse true).1 =
       HResp.errResp 401 "잘못된 인증 정보" ∧
     (login (some "alice") (some "pw") (Except.ok none) chkFalse true).2.countP
       (isApiCountWith "error") = 1 ∧
     (login (some "alice") (some "pw") (Except.ok none) chkFalse true).2.countP
       isKafkaPublishEv = 0) :=
  ⟨rfl, rfl,
   (c9_login "alice" "pw" "e" (UserRow.mk "alice" "h") (Except.ok none) chkTrue chkFalse
     true rfl rfl).2.1⟩

/-- Claim C10: a registration whose username already exists returns an
error response and leaves the users table unchanged: no row is inserted
and no commit is performed on that path. -/
theorem c10_register (u p : String) (hash : String → String) (users : List UserRow)
    (h : users.any (fun r => r.username == u) = true) :
    (register (some u) (some p) hash users).1 =
      HResp.errResp 400 "이미 존재하는 사용자명입니다" ∧
    (register (some u) (some p) hash users).2.1 = users ∧
    (register (some u) (some p) hash users).2.2.countP isDbInsertEv = 0 ∧
    (register (some u) (some p) hash users).2.2.countP isDbCommitEv = 0 := by
  simp [register, h, isDbInsertEv, isDbCommitEv]

/-- Witness for C10: registering the already-present username `bob`. -/
theorem c10_register_witness :
    [UserRow.mk "bob" "h1"].any (fun r => r.username == "bob") = true ∧
    ((register (some "bob") (some "pw") id [UserRow.mk "bob" "h1"]).1 =
       HResp.errResp 400 "이미 존재하는 사용자명입니다" ∧
     (register (some "bob") (some "pw") id [UserRow.mk "bob" "h1"]).2.1 =
       [UserRow.mk "bob" "h1"] ∧
     (register (some "bob") (some "pw") id [UserRow.mk "bob" "h1"]).2.2.countP
       isDbInsertEv = 0 ∧
     (register (some "bob") (some "pw") id [UserRow.mk "bob" "h1"]).2.2.countP
       isDbCommitEv = 0) :=
  ⟨rfl, c10_register "bob" "pw" id [UserRow.mk "bob" "h1"] rfl⟩

/-- Membership in an insertion step. -/
theorem mem_insertDesc (x z : KafkaMsg) (l : List KafkaMsg) :
    z ∈ insertDesc x l ↔ z = x ∨ z ∈ l := by
  induction l with
  | nil => simp [insertDesc]
  | cons y ys ih =>
    by_cases hc : y.timestamp ≤ x.timestamp
    · simp [insertDesc, hc]
    · simp [insertDesc, hc, ih]
      tauto

/-- Inserting into a descending-sorted list keeps it sorted. -/
theorem sortedDesc_insertDesc (x : KafkaMsg) (l : List KafkaMsg) (h : SortedDesc l) :
    SortedDesc (insertDesc x l) := by
  induction l with
  | nil => simp [insertDesc, SortedDesc]
  | cons y ys ih =>
    rcases List.pairwise_cons.mp h with ⟨hy, hys⟩
    by_cases hc : y.timestamp ≤ x.timestamp
    · simp only [insertDesc, if_pos hc]
      refine List.pairwise_cons.mpr ⟨?_, h⟩
      intro z hz
      rcases List.mem_cons.mp hz with rfl | hz'
      · exact hc
      · exact le_trans (hy z hz') hc
    · simp only [insertDesc, if_neg hc]
      refine List.pairwise_cons.mpr ⟨?_, ih hys⟩
      intro z hz
      rcases (mem_insertDesc x z ys).mp hz with rfl | hz'
      · exact le_of_not_le hc
      · exact hy z hz'

/-- The descending sort sorts. -/
theorem sortedDesc_sortDesc (l : List KafkaMsg) : SortedDesc (sortDesc l) := by
  induction l with
  | nil => simp [sortDesc, SortedDesc]
  | cons x xs ih => exact sortedDesc_insertDesc x (sortDesc xs) ih

/-- Insertion adds one element. -/
theorem length_insertDesc (x : KafkaMsg) (l : List KafkaMsg) :
    (insertDesc x l).length = l.length + 1 := by
  induction l with
  | nil => rfl
  | cons y ys ih =>
    by_cases hc : y.timestamp ≤ x.timestamp <;> simp [insertDesc, hc, ih]

/-- Sorting preserves length. -/
theorem length_sortDesc (l : List KafkaMsg) : (sortDesc l).length = l.length := by
  induction l with
  | nil => rfl
  | cons x xs ih =>
    show (insertDesc x (sortDesc xs)).length = xs.length + 1
    rw [length_insertDesc, ih]

/-- The consumer loop collects exactly the first `100 - logs.length`
remaining messages. -/
theorem readLoop_eq (msgs : List ConsumerMsg) (logs : List KafkaMsg)
    (h : logs.length < 100) :
    readLoop msgs logs = logs ++ (msgs.map extractLog).take (100 - logs.length) := by
  induction msgs generalizing logs with
  | nil => simp [readLoop]
  | cons m rest ih =>
    show (if 100 ≤ (logs ++ [extractLog m]).length then logs ++ [extractLog m]
          else readLoop rest (logs ++ [extractLog m])) = _
    by_cases hfull : 100 ≤ logs.length + 1
    · rw [if_pos (by simpa using hfull)]
      have hone : 100 - logs.length = 0 + 1 := by omega
      rw [List.map_cons, hone, List.take_succ_cons, List.take_zero]
    · rw [if_neg (by simpa using hfull)]
      rw [ih (logs ++ [extractLog m]) (by simp; omega)]
      have hsub : 100 - logs.length = (100 - (logs.length + 1)) + 1 := by omega
      simp only [List.map_cons, hsub, List.take_succ_cons, List.length_append,
        List.length_singleton, List.append_assoc, List.singleton_append]

/-- Claim C8: `get_kafka_logs` returns at most 100 events; it collects
events until either 100 are gathered or the consumer's idle timeout
exhausts the stream (`msgs` is what arrives before the timeout),
whichever comes first; and the returned sequence is sorted descending by
timestamp. -/
theorem c8_drain (msgs : List ConsumerMsg) :
    (get_kafka_logs msgs).length ≤ 100 ∧
    get_kafka_logs msgs = sortDesc ((msgs.take 100).map extractLog) ∧
    SortedDesc (get_kafka_logs msgs) := by
  have hr : readLoop msgs [] = (msgs.map extractLog).take 100 := by
    simpa using readLoop_eq msgs [] (by simp)
  refine ⟨?_, ?_, sortedDesc_sortDesc _⟩
  · show (sortDesc (readLoop msgs [])).length ≤ 100
    rw [hr, length_sortDesc, List.length_take]
    omega
  · show sortDesc (readLoop msgs []) = _
    rw [hr, List.map_take]

end AksDemo
